import Mathlib

/-!
# PayrollTracker — verification of the payroll computation and approval routes

Shallow embedding of the parts of the repository the claims concern:

* `calculatePayrollValues` from `client/src/components/payroll-form.tsx`
  (the client-side payroll calculator), together with the zod form schema
  `payrollItemFormSchema` from the same file;
* the routes `POST /employees`, `POST /approvals`,
  `PUT /approvals/:id/approve`, `PUT /approvals/:id/reject` and
  `POST /payroll-items` from `server/routes.ts`, over an explicit store
  state, with the drizzle table schema and generated insert schemas from
  `shared/schema.ts` and the `DatabaseStorage` operations from
  `server/storage.ts` (both reproduced in `src/Overview.txt`);
* `logActivity` from `server/routes.ts` (best-effort audit logging).

Money, hours and rates are JavaScript numbers in the source; they are
modelled as rationals (`ℚ`), exact on every value the claims mention.
Ids are `Nat`, timestamps and dates are opaque `Int`s, text is `String`.
-/

namespace Payroll

/-- An employee as read by the client payroll form: `basicSalary` is a
non-null numeric column, `hourlyRate` is nullable.  Only the fields
`calculatePayrollValues` touches are carried. -/
structure Employee where
  id : Nat
  basicSalary : ℚ
  hourlyRate : Option ℚ
  deriving Repr, DecidableEq

/-- The payroll-item form state (`payrollItemFormSchema` fields).  The
numeric inputs read with `getValues(...) || 0` may be absent, hence
`Option ℚ`; the derived fields written with `setValue` are plain `ℚ`. -/
structure ItemForm where
  payrollPeriodId : Nat
  employeeId : Nat
  basicSalary : ℚ
  hoursWorked : Option ℚ
  overtimeHours : Option ℚ
  overtimeAmount : ℚ
  grossPay : ℚ
  taxAmount : ℚ
  otherDeductions : Option ℚ
  netPay : ℚ
  status : String
  notes : Option String
  deriving Repr, DecidableEq

/-- JavaScript truthiness of the nullable numeric field
`employee.hourlyRate`: `null`/`undefined` and `0` are falsy. -/
def numTruthy : Option ℚ → Bool
  | none => false
  | some r => r != 0

/-- JavaScript `x || 0` on a possibly-absent numeric form value: absent
gives `0`, and `0 || 0 = 0`, so it is exactly `Option.getD 0`. -/
def orZero (o : Option ℚ) : ℚ := o.getD 0

/-- `calculatePayrollValues` from `payroll-form.tsx` (lines 295–327).
Looks the employee up in the loaded list; on a miss it returns without
touching the form.  Otherwise it derives the hourly rate (falling back to
`basicSalary / 160`), overtime at 1.5×, gross pay (hours-driven when
`hourlyRate` is truthy, salary-driven otherwise), a flat 15% tax, and
`netPay = grossPay - taxAmount - otherDeductions`, then writes the five
derived fields back into the form. -/
def calculatePayrollValues (employees : List Employee) (employeeId : Nat)
    (form : ItemForm) : ItemForm :=
  match employees.find? (fun e => e.id == employeeId) with
  | none => form
  | some employee =>
    let basicSalary := employee.basicSalary
    let hoursWorked := orZero form.hoursWorked
    let overtimeHours := orZero form.overtimeHours
    let hourlyRate :=
      if numTruthy employee.hourlyRate then employee.hourlyRate.getD 0
      else basicSalary / 160
    let overtimeRate := hourlyRate * (3 / 2)
    let overtimeAmount := overtimeHours * overtimeRate
    let grossPay :=
      if numTruthy employee.hourlyRate then hoursWorked * hourlyRate + overtimeAmount
      else basicSalary + overtimeAmount
    let taxRate : ℚ := 15 / 100
    let taxAmount := grossPay * taxRate
    let otherDeductions := orZero form.otherDeductions
    let netPay := grossPay - taxAmount - otherDeductions
    { form with
        basicSalary := basicSalary
        overtimeAmount := overtimeAmount
        grossPay := grossPay
        taxAmount := taxAmount
        netPay := netPay }

/-- `payrollItemFormSchema` from `payroll-form.tsx` (lines 53–66): zod
validation of a submitted form — every numeric field must be
non-negative, and period/employee ids at least 1. -/
def payrollItemFormValid (f : ItemForm) : Bool :=
  decide (1 ≤ f.payrollPeriodId) && decide (1 ≤ f.employeeId) &&
  decide (0 ≤ f.basicSalary) &&
  (match f.hoursWorked with | none => true | some h => decide (0 ≤ h)) &&
  decide (0 ≤ orZero f.overtimeHours) &&
  decide (0 ≤ f.overtimeAmount) &&
  decide (0 ≤ f.grossPay) && decide (0 ≤ f.taxAmount) &&
  decide (0 ≤ orZero f.otherDeductions) &&
  decide (0 ≤ f.netPay)

/-- Rounding half-up at the second decimal place, as the specification
words it ("standard half-up rounding at the currency's minor unit").
Stated from the spec for comparison only: the source applies no rounding. -/
def roundHalfUp2 (q : ℚ) : ℚ := (Int.floor (q * 100 + 1 / 2) : ℚ) / 100

/-- The spec's configured overtime parameters with their defaults:
`overtimeMultiplier = 1.5`, `standardMonthlyHours = 160` (hard-coded at
exactly these values in the source). -/
def overtimeMultiplier : ℚ := 3 / 2

/-- Default standard monthly hours used for the salaried fallback rate. -/
def standardMonthlyHours : ℚ := 160

/-! ## Server-side data model (`shared/schema.ts`, via `Overview.txt`) -/

/-- A row of the `approvals` table.  `startDate`, `endDate`, `hours`,
`amount`, `notes`, `approvedBy`, `approvedDate` and `rejectedReason` are
nullable columns; `status` defaults to `"pending"`. -/
structure Approval where
  id : Nat
  employeeId : Nat
  type : String
  requestDate : Int
  startDate : Option Int
  endDate : Option Int
  hours : Option ℚ
  amount : Option ℚ
  status : String
  notes : Option String
  approvedBy : Option Nat
  approvedDate : Option Int
  rejectedReason : Option String
  deriving Repr, DecidableEq

/-- A row of the `activities` table (the audit log). -/
structure Activity where
  id : Nat
  userId : Option Nat
  action : String
  entityType : Option String
  entityId : Option Nat
  details : Option String
  ipAddress : Option String
  deriving Repr, DecidableEq

/-- A row of the `payroll_items` table.  The table carries a
`period_employee_unique` constraint on `(payrollPeriodId, employeeId)`. -/
structure PayrollItem where
  id : Nat
  payrollPeriodId : Nat
  employeeId : Nat
  basicSalary : ℚ
  hoursWorked : Option ℚ
  overtimeHours : ℚ
  overtimeAmount : ℚ
  grossPay : ℚ
  taxAmount : ℚ
  otherDeductions : ℚ
  netPay : ℚ
  status : String
  notes : Option String
  deriving Repr, DecidableEq

/-- A row of the `employees` table.  `phone`, `address`,
`dateTerminated`, `hourlyRate`, `taxId`, `bankName` and
`bankAccountNumber` are nullable; `status` defaults to `"active"`. -/
structure EmployeeRow where
  id : Nat
  employeeCode : String
  firstName : String
  lastName : String
  email : String
  phone : Option String
  address : Option String
  position : String
  department : String
  dateHired : Int
  dateTerminated : Option Int
  basicSalary : ℚ
  hourlyRate : Option ℚ
  status : String
  taxId : Option String
  bankName : Option String
  bankAccountNumber : Option String
  deriving Repr, DecidableEq

/-- The value accepted by `insertEmployeeSchema`
(`createInsertSchema(employees).omit({id})`): not-null, no-default
columns required, nullable or defaulted columns optional. -/
structure InsertEmployee where
  employeeCode : String
  firstName : String
  lastName : String
  email : String
  phone : Option String := none
  address : Option String := none
  position : String
  department : String
  dateHired : Int
  dateTerminated : Option Int := none
  basicSalary : ℚ
  hourlyRate : Option ℚ := none
  status : Option String := none
  taxId : Option String := none
  bankName : Option String := none
  bankAccountNumber : Option String := none
  deriving Repr, DecidableEq

/-- The persistent state the routes act on, plus the operational log
(`console.error`) that `logActivity` writes to on an audit-write
failure.  Fresh ids come from the counters. -/
structure Store where
  employees : List EmployeeRow
  approvals : List Approval
  payrollItems : List PayrollItem
  activities : List Activity
  opLog : List String
  nextEmployeeId : Nat
  nextApprovalId : Nat
  nextPayrollItemId : Nat
  nextActivityId : Nat
  deriving Repr, DecidableEq

/-- `ApiError` from `server/routes.ts`: a message and an HTTP status. -/
structure ApiError where
  message : String
  status : Nat
  deriving Repr, DecidableEq

/-- `storage.getApproval(id)`: lookup by primary key. -/
def getApproval (s : Store) (id : Nat) : Option Approval :=
  s.approvals.find? (fun a => a.id == id)

/-- The `Partial InsertApproval` argument of
`DatabaseStorage.updateApproval`: any subset of the `InsertApproval`
fields.  `InsertApproval` (from `insertApprovalSchema` in
`shared/schema.ts`) omits `id`, `approvedBy`, `approvedDate` and
`rejectedReason`, so those columns cannot be written through it at all
(the route comments note exactly this for `rejectedReason`).  The
routes only ever pass `status`. -/
structure ApprovalUpdate where
  employeeId : Option Nat := none
  type : Option String := none
  requestDate : Option Int := none
  startDate : Option Int := none
  endDate : Option Int := none
  hours : Option ℚ := none
  amount : Option ℚ := none
  status : Option String := none
  notes : Option String := none
  deriving Repr, DecidableEq

/-- The effect of drizzle's `.update(approvals).set(approvalData)` on
one row: each supplied field overwrites the column, absent fields leave
it alone; the columns omitted from `InsertApproval` are untouched by
construction. -/
def applyApprovalUpdate (a : Approval) (u : ApprovalUpdate) : Approval :=
  { a with
      employeeId := u.employeeId.getD a.employeeId
      type := u.type.getD a.type
      requestDate := u.requestDate.getD a.requestDate
      startDate := u.startDate.or a.startDate
      endDate := u.endDate.or a.endDate
      hours := u.hours.or a.hours
      amount := u.amount.or a.amount
      status := u.status.getD a.status
      notes := u.notes.or a.notes }

/-- `DatabaseStorage.updateApproval(id, approvalData)` from
`server/storage.ts` (reproduced in `src/Overview.txt` lines 810–817):
`.update(approvals).set(approvalData).where(eq(approvals.id, id))
.returning()` — an unconditional partial update of every row with the
given id, with no condition on the current status.  Returns the updated
row, or `none` (`undefined`) when no row has that id. -/
def updateApproval (s : Store) (id : Nat) (u : ApprovalUpdate) :
    Store × Option Approval :=
  let approvals := s.approvals.map
    (fun a => if a.id == id then applyApprovalUpdate a u else a)
  ({ s with approvals := approvals },
   (getApproval s id).map (fun a => applyApprovalUpdate a u))

/-- `logActivity` from `server/routes.ts` (lines 43–56): wraps
`storage.createActivity` — a plain insert into `activities`
(`src/Overview.txt` lines 842–845) — in `try/catch`; on failure it only
`console.error`s ("Failed to log activity: …") and returns normally, so
the caller never sees the error.  `writeFails` models whether the store
write throws. -/
def logActivity (writeFails : Bool) (s : Store) (action : String)
    (userId : Option Nat) (entityType : Option String)
    (entityId : Option Nat) (details : Option String) : Store :=
  if writeFails then
    { s with opLog := s.opLog ++ ["Failed to log activity"] }
  else
    { s with
        activities := s.activities ++
          [{ id := s.nextActivityId, userId := userId, action := action,
             entityType := entityType, entityId := entityId,
             details := details, ipAddress := some "127.0.0.1" }]
        nextActivityId := s.nextActivityId + 1 }

/-- `PUT /approvals/:id/approve` (`server/routes.ts` lines 604–634):
404 when the id does not resolve; otherwise updates the row to
`status = 'approved'` (only that property), logs an `approve` activity,
and responds with the updated row.  No check of the current status is
performed. -/
def approveRoute (actFail : Bool) (userId : Option Nat) (s : Store)
    (id : Nat) : Except ApiError (Store × Option Approval) :=
  match getApproval s id with
  | none => .error ⟨"Approval not found", 404⟩
  | some approval =>
    let (s1, updated) := updateApproval s id { status := some "approved" }
    let s2 := logActivity actFail s1 "approve" userId (some "approval")
      (some id)
      (some ("Approved " ++ approval.type ++ " request for employee ID: "
        ++ toString approval.employeeId))
    .ok (s2, updated)

/-- JavaScript truthiness of `req.body.reason`: absent, or the empty
string, is falsy. -/
def strTruthy : Option String → Bool
  | none => false
  | some r => r != ""

/-- `PUT /approvals/:id/reject` (`server/routes.ts` lines 636–674):
400 when `reason` is falsy, 404 when the id does not resolve; otherwise
updates the row to `status = 'rejected'` — the route's own comment notes
that `rejectedReason` cannot be written through the partial-update
schema, and the activity detail string does not include the reason —
then logs a `reject` activity and responds with the updated row.  No
check of the current status is performed. -/
def rejectRoute (actFail : Bool) (userId : Option Nat) (s : Store)
    (id : Nat) (reason : Option String) :
    Except ApiError (Store × Option Approval) :=
  if !strTruthy reason then .error ⟨"Rejection reason is required", 400⟩
  else
    match getApproval s id with
    | none => .error ⟨"Approval not found", 404⟩
    | some approval =>
      let (s1, updated) := updateApproval s id { status := some "rejected" }
      let s2 := logActivity actFail s1 "reject" userId (some "approval")
        (some id)
        (some ("Rejected " ++ approval.type ++ " request for employee ID: "
          ++ toString approval.employeeId))
      .ok (s2, updated)

/-- A raw `POST /approvals` request body, before zod validation: every
field possibly absent. -/
structure RawApproval where
  employeeId : Option Nat := none
  type : Option String := none
  requestDate : Option Int := none
  startDate : Option Int := none
  endDate : Option Int := none
  hours : Option ℚ := none
  amount : Option ℚ := none
  status : Option String := none
  notes : Option String := none
  deriving Repr, DecidableEq

/-- The value accepted by `insertApprovalSchema`: the not-null,
no-default columns are required, everything else optional; `id`,
`approvedBy`, `approvedDate`, `rejectedReason` are omitted. -/
structure InsertApproval where
  employeeId : Nat
  type : String
  requestDate : Int
  startDate : Option Int
  endDate : Option Int
  hours : Option ℚ
  amount : Option ℚ
  status : Option String
  notes : Option String
  deriving Repr, DecidableEq

/-- `insertApprovalSchema.parse` (`shared/schema.ts`):
`createInsertSchema(approvals).omit({id, approvedBy, approvedDate,
rejectedReason})`.  The generated schema requires exactly the not-null
columns without a database default — `employeeId`, `type`,
`requestDate`; all other columns are optional, with no shape condition
tied to `type`. -/
def parseInsertApproval (raw : RawApproval) : Except ApiError InsertApproval :=
  match raw.employeeId, raw.type, raw.requestDate with
  | some employeeId, some type_, some requestDate =>
    .ok { employeeId := employeeId, type := type_,
          requestDate := requestDate, startDate := raw.startDate,
          endDate := raw.endDate, hours := raw.hours, amount := raw.amount,
          status := raw.status, notes := raw.notes }
  | _, _, _ => .error ⟨"Validation error: required field missing", 400⟩

/-- `DatabaseStorage.createApproval(approval)` from `server/storage.ts`
(reproduced in `src/Overview.txt` lines 805–808):
`.insert(approvals).values(approval).returning()` — a plain insert of
the validated row.  The database assigns the serial id, applies the
column default `status = 'pending'` when the value is absent, and
leaves the omitted columns (`approvedBy`, `approvedDate`,
`rejectedReason`) null. -/
def createApproval (s : Store) (ins : InsertApproval) : Store × Approval :=
  let row : Approval :=
    { id := s.nextApprovalId, employeeId := ins.employeeId,
      type := ins.type, requestDate := ins.requestDate,
      startDate := ins.startDate, endDate := ins.endDate,
      hours := ins.hours, amount := ins.amount,
      status := ins.status.getD "pending", notes := ins.notes,
      approvedBy := none, approvedDate := none, rejectedReason := none }
  ({ s with approvals := s.approvals ++ [row],
            nextApprovalId := s.nextApprovalId + 1 }, row)

/-- `POST /approvals` (`server/routes.ts` lines 582–602): parse the body
with `insertApprovalSchema` (a `ZodError` becomes a 400 `ApiError`),
persist the approval, log a `create` activity, respond 201 with the new
row. -/
def postApprovals (actFail : Bool) (userId : Option Nat) (s : Store)
    (raw : RawApproval) : Except ApiError (Store × Approval) :=
  match parseInsertApproval raw with
  | .error e => .error e
  | .ok ins =>
    let (s1, newApproval) := createApproval s ins
    let s2 := logActivity actFail s1 "create" userId (some "approval")
      (some newApproval.id)
      (some ("Created " ++ newApproval.type
        ++ " approval request for employee ID: "
        ++ toString newApproval.employeeId))
    .ok (s2, newApproval)

/-- The value accepted by `insertPayrollItemSchema`
(`createInsertSchema(payrollItems).omit({id})`): not-null, no-default
columns required, nullable or defaulted columns optional. -/
structure InsertPayrollItem where
  payrollPeriodId : Nat
  employeeId : Nat
  basicSalary : ℚ
  hoursWorked : Option ℚ := none
  overtimeHours : Option ℚ := none
  overtimeAmount : Option ℚ := none
  grossPay : ℚ
  taxAmount : ℚ
  otherDeductions : Option ℚ := none
  netPay : ℚ
  status : Option String := none
  notes : Option String := none
  deriving Repr, DecidableEq

/-- `DatabaseStorage.createPayrollItem(item)` from `server/storage.ts`
(reproduced in `src/Overview.txt` lines 627–630):
`.insert(payrollItems).values(item).returning()` — a plain insert.
The `payroll_items` table declares the unique constraint
`period_employee_unique` on `(payrollPeriodId, employeeId)`
(`shared/schema.ts`), so an insert colliding with an existing row makes
the database throw its unique-constraint violation — the spec's
`DuplicatePayrollItemError` — and write nothing; otherwise the row is
inserted with a fresh serial id and the column defaults applied. -/
def createPayrollItem (s : Store) (ins : InsertPayrollItem) :
    Except ApiError (Store × PayrollItem) :=
  if s.payrollItems.any (fun it =>
      it.payrollPeriodId == ins.payrollPeriodId
        && it.employeeId == ins.employeeId) then
    .error ⟨"duplicate key value violates unique constraint period_employee_unique", 500⟩
  else
    let row : PayrollItem :=
      { id := s.nextPayrollItemId,
        payrollPeriodId := ins.payrollPeriodId,
        employeeId := ins.employeeId, basicSalary := ins.basicSalary,
        hoursWorked := ins.hoursWorked,
        overtimeHours := ins.overtimeHours.getD 0,
        overtimeAmount := ins.overtimeAmount.getD 0,
        grossPay := ins.grossPay, taxAmount := ins.taxAmount,
        otherDeductions := ins.otherDeductions.getD 0,
        netPay := ins.netPay, status := ins.status.getD "pending",
        notes := ins.notes }
    .ok ({ s with payrollItems := s.payrollItems ++ [row],
                  nextPayrollItemId := s.nextPayrollItemId + 1 }, row)

/-- `POST /payroll-items` (`server/routes.ts` lines 355–375): persist
the validated body; a store failure propagates to the error handler
(`next(error)`); on success log a `create` activity and respond 201. -/
def postPayrollItems (actFail : Bool) (userId : Option Nat) (s : Store)
    (ins : InsertPayrollItem) : Except ApiError (Store × PayrollItem) :=
  match createPayrollItem s ins with
  | .error e => .error e
  | .ok (s1, newItem) =>
    let s2 := logActivity actFail s1 "create" userId (some "payrollItem")
      (some newItem.id)
      (some ("Created payroll item for employee ID: "
        ++ toString newItem.employeeId ++ " in period ID: "
        ++ toString newItem.payrollPeriodId))
    .ok (s2, newItem)

/-- `DatabaseStorage.createEmployee(employee)` from `server/storage.ts`
(reproduced in `src/Overview.txt` lines 494–497):
`.insert(employees).values(employee).returning()` — a plain insert with
a fresh serial id and the `status = 'active'` column default applied
when absent. -/
def createEmployee (s : Store) (ins : InsertEmployee) : Store × EmployeeRow :=
  let row : EmployeeRow :=
    { id := s.nextEmployeeId, employeeCode := ins.employeeCode,
      firstName := ins.firstName, lastName := ins.lastName,
      email := ins.email, phone := ins.phone, address := ins.address,
      position := ins.position, department := ins.department,
      dateHired := ins.dateHired, dateTerminated := ins.dateTerminated,
      basicSalary := ins.basicSalary, hourlyRate := ins.hourlyRate,
      status := ins.status.getD "active", taxId := ins.taxId,
      bankName := ins.bankName,
      bankAccountNumber := ins.bankAccountNumber }
  ({ s with employees := s.employees ++ [row],
            nextEmployeeId := s.nextEmployeeId + 1 }, row)

/-- `POST /employees` (`server/routes.ts` lines 144–164): persist the
validated body, log a `create` activity with the employee's name in the
detail, respond 201 with the new row. -/
def postEmployees (actFail : Bool) (userId : Option Nat) (s : Store)
    (ins : InsertEmployee) : Except ApiError (Store × EmployeeRow) :=
  let (s1, newEmployee) := createEmployee s ins
  let s2 := logActivity actFail s1 "create" userId (some "employee")
    (some newEmployee.id)
    (some ("Created employee: " ++ newEmployee.firstName ++ " "
      ++ newEmployee.lastName))
  .ok (s2, newEmployee)

/-! ## Fixtures -/

/-- An hourly employee: rate 20, as in the spec's scenario 2. -/
def hourlyEmp : Employee := { id := 1, basicSalary := 0, hourlyRate := some 20 }

/-- A salaried employee with no hourly rate. -/
def salariedEmp : Employee := { id := 2, basicSalary := 1000, hourlyRate := none }

/-- A blank payroll-item form for employee 1, period 1. -/
def blankForm : ItemForm :=
  { payrollPeriodId := 1, employeeId := 1, basicSalary := 0,
    hoursWorked := none, overtimeHours := none, overtimeAmount := 0,
    grossPay := 0, taxAmount := 0, otherDeductions := none, netPay := 0,
    status := "pending", notes := none }

/-- Scenario-2 inputs: 160 hours, 10 overtime hours, no other deductions. -/
def scenario2Form : ItemForm :=
  { blankForm with hoursWorked := some 160, overtimeHours := some 10,
                   otherDeductions := some 0 }

/-- Zero hours but 100 of other deductions: gross pay 0, so the raw net
pay is -100. -/
def negNetForm : ItemForm :=
  { blankForm with hoursWorked := some 0, overtimeHours := some 0,
                   otherDeductions := some 100 }

/-- One overtime hour on the salaried employee: the fallback rate
1000 / 160 * 1.5 = 9.375 has three decimal places. -/
def overtimeFractionForm : ItemForm :=
  { blankForm with employeeId := 2, overtimeHours := some 1 }

end Payroll

namespace Payroll

/-! ## C1 — scenario 2 on the calculator -/

/-- C1: for an hourly employee with hourlyRate 20, hoursWorked 160,
overtimeHours 10 and otherDeductions 0, `calculatePayrollValues`
produces overtimeAmount 300, grossPay 3500, taxAmount 525 and
netPay 2975. -/
theorem c1_scenario2 :
    (calculatePayrollValues [hourlyEmp] 1 scenario2Form).overtimeAmount = 300
    ∧ (calculatePayrollValues [hourlyEmp] 1 scenario2Form).grossPay = 3500
    ∧ (calculatePayrollValues [hourlyEmp] 1 scenario2Form).taxAmount = 525
    ∧ (calculatePayrollValues [hourlyEmp] 1 scenario2Form).netPay = 2975 := by
  have hfind : [hourlyEmp].find? (fun e => e.id == 1) = some hourlyEmp := rfl
  refine ⟨?_, ?_, ?_, ?_⟩ <;>
    · simp only [calculatePayrollValues, hfind]
      norm_num [hourlyEmp, scenario2Form, blankForm, orZero, numTruthy]

/-! ## C2 — net pay can go negative; no error is raised -/

/-- C2 counterexample: with gross pay 0 and other deductions 100 the
calculator returns netPay = -100 — a negative net pay is returned
rather than any failure. -/
theorem c2_counterexample :
    (calculatePayrollValues [hourlyEmp] 1 negNetForm).netPay = -100
    ∧ (calculatePayrollValues [hourlyEmp] 1 negNetForm).netPay < 0 := by
  have hfind : [hourlyEmp].find? (fun e => e.id == 1) = some hourlyEmp := rfl
  refine ⟨?_, ?_⟩ <;>
    · simp only [calculatePayrollValues, hfind]
      norm_num [hourlyEmp, negNetForm, blankForm, orZero, numTruthy]

/-- C2 amended: the calculator performs no non-negativity check — it
always returns `netPay = grossPay - taxAmount - otherDeductions`, which
may be negative; the only guard on negative net pay is the zod form
schema, which fails validation on any form whose netPay is negative. -/
theorem c2_amended (employees : List Employee) (eid : Nat) (form : ItemForm)
    (e : Employee) (h : employees.find? (fun x => x.id == eid) = some e) :
    (calculatePayrollValues employees eid form).netPay =
      (calculatePayrollValues employees eid form).grossPay
        - (calculatePayrollValues employees eid form).taxAmount
        - orZero form.otherDeductions
    ∧ ∀ f : ItemForm, f.netPay < 0 → payrollItemFormValid f = false := by
  constructor
  · simp only [calculatePayrollValues, h]
  · intro f hf
    simp [payrollItemFormValid, not_le.mpr hf]

/-- Witness for `c2_amended` at the concrete negative-net-pay input. -/
theorem c2_amended_witness :
    [hourlyEmp].find? (fun x => x.id == 1) = some hourlyEmp
    ∧ ((calculatePayrollValues [hourlyEmp] 1 negNetForm).netPay =
        (calculatePayrollValues [hourlyEmp] 1 negNetForm).grossPay
          - (calculatePayrollValues [hourlyEmp] 1 negNetForm).taxAmount
          - orZero negNetForm.otherDeductions
       ∧ ∀ f : ItemForm, f.netPay < 0 → payrollItemFormValid f = false) :=
  ⟨rfl, c2_amended [hourlyEmp] 1 negNetForm hourlyEmp rfl⟩

/-! ## C6 — overtime rate formula holds, but no rounding is applied -/

/-- C6 counterexample: the salaried fallback gives overtime rate
1000 / 160 * 1.5 = 9.375, so one overtime hour yields
overtimeAmount = 9.375, not the half-up-rounded 9.38 the claim
requires. -/
theorem c6_counterexample :
    (calculatePayrollValues [salariedEmp] 2 overtimeFractionForm).overtimeAmount
      = 75 / 8
    ∧ roundHalfUp2 ((1 : ℚ) *
        ((salariedEmp.basicSalary / standardMonthlyHours) * overtimeMultiplier))
      = 469 / 50
    ∧ (75 / 8 : ℚ) ≠ 469 / 50 := by
  have hfind : [salariedEmp].find? (fun e => e.id == 2) = some salariedEmp := rfl
  refine ⟨?_, ?_, ?_⟩
  · simp only [calculatePayrollValues, hfind]
    norm_num [salariedEmp, overtimeFractionForm, blankForm, orZero, numTruthy]
  · norm_num [roundHalfUp2, salariedEmp, standardMonthlyHours, overtimeMultiplier,
      Int.floor_eq_iff]
  · norm_num

/-- C6 amended: overtimeAmount equals overtimeHours times the overtime
rate — `hourlyRate * 1.5` when the employee's hourlyRate is a truthy
(non-null, non-zero) value, `(basicSalary / 160) * 1.5` otherwise —
taken exactly, with no rounding applied to the product. -/
theorem c6_amended (employees : List Employee) (eid : Nat) (form : ItemForm)
    (e : Employee) (h : employees.find? (fun x => x.id == eid) = some e) :
    (calculatePayrollValues employees eid form).overtimeAmount =
      orZero form.overtimeHours *
        ((if numTruthy e.hourlyRate then e.hourlyRate.getD 0
          else e.basicSalary / standardMonthlyHours) * overtimeMultiplier) := by
  simp only [calculatePayrollValues, h, standardMonthlyHours, overtimeMultiplier]

/-- Witness for `c6_amended` on the salaried employee. -/
theorem c6_amended_witness :
    [salariedEmp].find? (fun x => x.id == 2) = some salariedEmp
    ∧ (calculatePayrollValues [salariedEmp] 2 overtimeFractionForm).overtimeAmount =
        orZero overtimeFractionForm.overtimeHours *
          ((if numTruthy salariedEmp.hourlyRate then salariedEmp.hourlyRate.getD 0
            else salariedEmp.basicSalary / standardMonthlyHours) * overtimeMultiplier) :=
  ⟨rfl, c6_amended [salariedEmp] 2 overtimeFractionForm salariedEmp rfl⟩

/-! ## C9 — the calculator writes only the five derived fields -/

/-- C9: `calculatePayrollValues` leaves the input fields hoursWorked,
overtimeHours, otherDeductions, employeeId, payrollPeriodId, status and
notes unchanged, and when the employee id matches nothing in the list it
returns the form entirely unchanged. -/
theorem c9_frame (employees : List Employee) (eid : Nat) (form : ItemForm) :
    ((calculatePayrollValues employees eid form).hoursWorked = form.hoursWorked
     ∧ (calculatePayrollValues employees eid form).overtimeHours = form.overtimeHours
     ∧ (calculatePayrollValues employees eid form).otherDeductions = form.otherDeductions
     ∧ (calculatePayrollValues employees eid form).employeeId = form.employeeId
     ∧ (calculatePayrollValues employees eid form).payrollPeriodId = form.payrollPeriodId
     ∧ (calculatePayrollValues employees eid form).status = form.status
     ∧ (calculatePayrollValues employees eid form).notes = form.notes)
    ∧ (employees.find? (fun x => x.id == eid) = none →
        calculatePayrollValues employees eid form = form) := by
  constructor
  · cases h : employees.find? (fun x => x.id == eid) <;>
      simp [calculatePayrollValues, h]
  · intro h
    simp only [calculatePayrollValues, h]

/-! ## Store fixtures -/

/-- A store with no rows. -/
def emptyStore : Store :=
  { employees := [], approvals := [], payrollItems := [], activities := [],
    opLog := [], nextEmployeeId := 1, nextApprovalId := 1,
    nextPayrollItemId := 1, nextActivityId := 1 }

/-- A pending overtime approval for employee 7. -/
def pendingOvertime : Approval :=
  { id := 1, employeeId := 7, type := "overtime", requestDate := 0,
    startDate := none, endDate := none, hours := some 4, amount := none,
    status := "pending", notes := none, approvedBy := none,
    approvedDate := none, rejectedReason := none }

/-- A store holding one approval that is already in the terminal state
`approved`. -/
def terminalStore : Store :=
  { emptyStore with
      approvals := [{ pendingOvertime with status := "approved" }],
      nextApprovalId := 2 }

/-- A store holding one pending approval. -/
def pendingStore : Store :=
  { emptyStore with approvals := [pendingOvertime], nextApprovalId := 2 }

/-- An existing payroll item for (period 3, employee 9). -/
def existingItem : PayrollItem :=
  { id := 1, payrollPeriodId := 3, employeeId := 9, basicSalary := 0,
    hoursWorked := none, overtimeHours := 0, overtimeAmount := 0,
    grossPay := 100, taxAmount := 15, otherDeductions := 0, netPay := 85,
    status := "pending", notes := none }

/-- A store already holding `existingItem`. -/
def itemStore : Store :=
  { emptyStore with payrollItems := [existingItem], nextPayrollItemId := 2 }

/-- A second insert for the same (period 3, employee 9) pair. -/
def duplicateInsert : InsertPayrollItem :=
  { payrollPeriodId := 3, employeeId := 9, basicSalary := 0,
    grossPay := 100, taxAmount := 15, netPay := 85 }

/-- An overtime approval payload carrying `hours` but no `startDate`. -/
def overtimeNoStart : RawApproval :=
  { employeeId := some 1, type := some "overtime", requestDate := some 0,
    hours := some 5 }

/-- The projection of a route result that drops the audit side channel:
error or (employees, approvals and payroll-items tables, response
value).  Used to compare runs whose activity write succeeds with runs
where it fails. -/
def primaryView {α : Type} (r : Except ApiError (Store × α)) :
    Except ApiError (List EmployeeRow × List Approval × List PayrollItem × α) :=
  r.map (fun p => (p.1.employees, p.1.approvals, p.1.payrollItems, p.2))

/-! ## C3 — terminal approvals can still be transitioned -/

/-- C3 counterexample: on a store whose only approval is already
`approved`, the reject route succeeds and moves it to `rejected` —
rather than failing and leaving the terminal status unchanged as the
claim requires. -/
theorem c3_counterexample :
    (rejectRoute false (some 2) terminalStore 1 (some "no")).toOption.map
      (fun p => p.2.map (fun a => a.status)) = some (some "rejected") := rfl

/-- C3 amended: the approve and reject handlers check only that the
approval exists (and, for reject, that a non-empty reason was sent);
they update the status unconditionally, so any existing approval —
pending or terminal — transitions to the requested status, and no
transition ever fails on account of the current status. -/
theorem c3_amended (actFail : Bool) (userId : Option Nat) (s : Store)
    (id : Nat) (a : Approval) (reason : Option String)
    (ha : getApproval s id = some a) (hr : strTruthy reason = true) :
    (approveRoute actFail userId s id).toOption.map
      (fun p => p.2.map (fun x => x.status)) = some (some "approved")
    ∧ (rejectRoute actFail userId s id reason).toOption.map
      (fun p => p.2.map (fun x => x.status)) = some (some "rejected") := by
  constructor
  · simp [approveRoute, ha, updateApproval, applyApprovalUpdate, Except.toOption]
  · simp [rejectRoute, hr, ha, updateApproval, applyApprovalUpdate, Except.toOption]

/-- Witness for `c3_amended`: a store whose approval is already
terminal still approves and rejects successfully. -/
theorem c3_amended_witness :
    getApproval terminalStore 1 = some { pendingOvertime with status := "approved" }
    ∧ strTruthy (some "no") = true
    ∧ ((approveRoute false (some 2) terminalStore 1).toOption.map
         (fun p => p.2.map (fun x => x.status)) = some (some "approved")
       ∧ (rejectRoute false (some 2) terminalStore 1 (some "no")).toOption.map
         (fun p => p.2.map (fun x => x.status)) = some (some "rejected")) :=
  ⟨rfl, rfl, c3_amended false (some 2) terminalStore 1
    { pendingOvertime with status := "approved" } (some "no") rfl rfl⟩

/-! ## C4 — (period, employee) uniqueness of payroll items -/

/-- C4: when a payroll item for the same (payrollPeriodId, employeeId)
pair already exists, `POST /payroll-items` fails with the store's
unique-constraint violation (the spec's DuplicatePayrollItemError), and
no row is written or replaced. -/
theorem c4_duplicate (actFail : Bool) (userId : Option Nat) (s : Store)
    (ins : InsertPayrollItem) (it : PayrollItem)
    (hmem : it ∈ s.payrollItems)
    (hp : it.payrollPeriodId = ins.payrollPeriodId)
    (he : it.employeeId = ins.employeeId) :
    postPayrollItems actFail userId s ins =
      .error ⟨"duplicate key value violates unique constraint period_employee_unique",
              500⟩ := by
  have hany : s.payrollItems.any (fun x =>
      x.payrollPeriodId == ins.payrollPeriodId
        && x.employeeId == ins.employeeId) = true := by
    rw [List.any_eq_true]
    exact ⟨it, hmem, by simp [hp, he]⟩
  simp [postPayrollItems, createPayrollItem, hany]

/-- Witness for `c4_duplicate` on a store already holding an item for
(period 3, employee 9). -/
theorem c4_duplicate_witness :
    existingItem ∈ itemStore.payrollItems
    ∧ existingItem.payrollPeriodId = duplicateInsert.payrollPeriodId
    ∧ existingItem.employeeId = duplicateInsert.employeeId
    ∧ postPayrollItems false none itemStore duplicateInsert =
      .error ⟨"duplicate key value violates unique constraint period_employee_unique",
              500⟩ :=
  ⟨by simp [itemStore, emptyStore], rfl, rfl,
   c4_duplicate false none itemStore duplicateInsert existingItem
     (by simp [itemStore, emptyStore]) rfl rfl⟩

/-! ## C5 — the rejection reason is required but then discarded -/

/-- C5: a reject with a missing or empty reason fails with the 400
"Rejection reason is required" error and changes nothing; but a
successful reject discards the supplied reason — the updated approval's
`rejectedReason` stays `none` (the partial-update schema omits it) and
the emitted activity detail is the fixed string without the reason. -/
theorem c5_reason_discarded :
    rejectRoute false (some 2) pendingStore 1 none =
      .error ⟨"Rejection reason is required", 400⟩
    ∧ rejectRoute false (some 2) pendingStore 1 (some "") =
      .error ⟨"Rejection reason is required", 400⟩
    ∧ (rejectRoute false (some 2) pendingStore 1
        (some "insufficient budget")).toOption.map
        (fun p => (p.2.map (fun a => (a.status, a.rejectedReason)),
                   p.1.activities.map (fun ac => ac.details))) =
      some (some ("rejected", none),
            [some "Rejected overtime request for employee ID: 7"]) :=
  ⟨rfl, rfl, rfl⟩

/-! ## C7 — approval payloads are not validated per type -/

/-- C7 counterexample: an overtime approval payload with `hours = 5`
and no `startDate` passes `insertApprovalSchema` and creates a pending
approval — rather than failing with InvalidApprovalPayloadError as the
claim requires. -/
theorem c7_counterexample :
    (postApprovals false none emptyStore overtimeNoStart).toOption.map
      (fun p => (p.2.type, p.2.hours, p.2.startDate, p.2.status,
                 p.1.approvals.length)) =
      some ("overtime", some 5, none, "pending", 1) := rfl

/-- C7 amended: `POST /approvals` validates only the not-null table
columns — a payload parses exactly when `employeeId`, `type` and
`requestDate` are present; the type-specific fields (overtime's
`startDate`, leave's dates, reimbursement's `amount`/`notes`) are all
optional regardless of `type`, and no type-shape check exists. -/
theorem c7_amended (raw : RawApproval) :
    (∃ ins, parseInsertApproval raw = .ok ins) ↔
      (raw.employeeId.isSome ∧ raw.type.isSome ∧ raw.requestDate.isSome) := by
  rcases raw with ⟨eid, ty, rd, sd, ed, hrs, amt, st, nts⟩
  cases eid <;> cases ty <;> cases rd <;> simp [parseInsertApproval]

/-! ## C8 — audit logging is best effort -/

/-- C8: for each of the audit-emitting primary operations — employee
create, payroll-item create, approval create, approve and reject — a
failing activity-log write leaves the operation's outcome untouched:
the error/success result, the response value, and the employees,
approvals and payroll-items tables are identical to a run whose audit
write succeeds, and the failure is surfaced only on the operational
log. -/
theorem c8_best_effort (userId : Option Nat) (s : Store) (id : Nat)
    (reason : Option String) (raw : RawApproval) (ins : InsertPayrollItem)
    (emp : InsertEmployee) :
    primaryView (postEmployees true userId s emp) =
      primaryView (postEmployees false userId s emp)
    ∧ primaryView (approveRoute true userId s id) =
      primaryView (approveRoute false userId s id)
    ∧ primaryView (rejectRoute true userId s id reason) =
      primaryView (rejectRoute false userId s id reason)
    ∧ primaryView (postApprovals true userId s raw) =
      primaryView (postApprovals false userId s raw)
    ∧ primaryView (postPayrollItems true userId s ins) =
      primaryView (postPayrollItems false userId s ins)
    ∧ (∀ p, approveRoute true userId s id = .ok p →
        p.1.opLog = s.opLog ++ ["Failed to log activity"]) := by
  refine ⟨?_, ?_, ?_, ?_, ?_, ?_⟩
  · simp [postEmployees, createEmployee, primaryView, logActivity, Except.map]
  · cases h : getApproval s id <;>
      simp [approveRoute, h, primaryView, logActivity, updateApproval, Except.map]
  · cases hr : strTruthy reason
    · simp [rejectRoute, hr]
    · cases h : getApproval s id <;>
        simp [rejectRoute, hr, h, primaryView, logActivity, updateApproval,
          Except.map]
  · cases hp : parseInsertApproval raw <;>
      simp [postApprovals, hp, primaryView, logActivity, createApproval,
        Except.map]
  · cases hc : s.payrollItems.any (fun x =>
        x.payrollPeriodId == ins.payrollPeriodId
          && x.employeeId == ins.employeeId) <;>
      simp [postPayrollItems, createPayrollItem, hc, primaryView, logActivity,
        Except.map]
  · intro p hp
    cases h : getApproval s id
    · simp [approveRoute, h] at hp
    · simp only [approveRoute, h, Except.ok.injEq] at hp
      subst hp
      simp [logActivity, updateApproval]

/-! ## C10 — approve writes only the status column -/

/-- C10: a successful approve responds with the stored approval equal
to the old row with only `status` replaced by `"approved"`: in
particular `approvedBy`, `approvedDate` and `rejectedReason` are
unchanged, so the approver's identity and the approval time are never
recorded. -/
theorem c10_approve_frame (actFail : Bool) (userId : Option Nat)
    (s : Store) (id : Nat) (a : Approval)
    (ha : getApproval s id = some a) :
    (approveRoute actFail userId s id).toOption.map (fun p => p.2) =
      some (some { a with status := "approved" }) := by
  cases a
  simp [approveRoute, ha, updateApproval, applyApprovalUpdate, Except.toOption]

/-- Witness for `c10_approve_frame` on the pending-approval store. -/
theorem c10_approve_frame_witness :
    getApproval pendingStore 1 = some pendingOvertime
    ∧ (approveRoute false (some 2) pendingStore 1).toOption.map
        (fun p => p.2) =
      some (some { pendingOvertime with status := "approved" }) :=
  ⟨rfl, c10_approve_frame false (some 2) pendingStore 1 pendingOvertime rfl⟩

end Payroll
